import Mathlib

/-!
Verification of the header-validation engine of `mcp-abap-adt-header-validator`
(`src/headerValidator.ts`), as a shallow embedding.

A JavaScript header map (`IncomingHttpHeaders`) maps a header name to a string,
an array of strings, or `undefined`.  We model it as an association list from
names to `HeaderVal`; JavaScript truthiness of a value (`undefined` and `""`
are falsy, arrays are always truthy) is modelled by `truthyVal`/`truthyStr`.
-/

namespace HeaderValidator

/-- A header value: a single string or an array of strings, as in
`IncomingHttpHeaders`. -/
inductive HeaderVal where
  | str (s : String)
  | arr (l : List String)
deriving Repr, DecidableEq

/-- A header map: an association list from header names to values (a JS object
has at most one entry per key; lookup takes the first match). -/
abbrev Headers := List (String × HeaderVal)

/-- `headers[name]` : object property lookup. -/
def lookupH (headers : Headers) (name : String) : Option HeaderVal :=
  (headers.find? (fun p => p.1 == name)).map (fun p => p.2)

/-- ASCII lowercase, modelling JS `String.prototype.toLowerCase` on the
ASCII header names used by the source (list-based so the kernel can
evaluate it). -/
def toLowerAscii (s : String) : String := String.mk (s.data.map Char.toLower)

/-- JS `String.prototype.trim`: drop whitespace from both ends (list-based so
the kernel can evaluate it). -/
def jsTrim (s : String) : String :=
  String.mk (((s.data.dropWhile Char.isWhitespace).reverse.dropWhile Char.isWhitespace).reverse)

/-- JS truthiness of a `string | string[] | undefined` value:
`undefined` and `""` are falsy; every array (even empty) is truthy. -/
def truthyVal : Option HeaderVal → Bool
  | none => false
  | some (.str s) => !(s == "")
  | some (.arr _) => true

/-- JS truthiness of a `string | undefined` value. -/
def truthyStr : Option String → Bool
  | none => false
  | some s => !(s == "")

/-- The value of `headers[name.toLowerCase()] || headers[name]`, the raw
dual-case lookup used by `getHeaderValue` (lines 51–55) and by the raw trigger
checks of the SAP-destination, MCP-destination and basic-auth validators
(lines 86, 157, 286–287). -/
def rawHeaderValue (headers : Headers) (name : String) : Option HeaderVal :=
  let v1 := lookupH headers (toLowerAscii name)
  if truthyVal v1 then v1 else lookupH headers name

/-- `getHeaderValue` (lines 49–63): raw dual-case lookup, return `undefined`
when falsy, first element of an array, trimmed. -/
def getHeaderValue (headers : Headers) (name : String) : Option String :=
  match rawHeaderValue headers name with
  | none => none
  | some (.str s) => if s == "" then none else some (jsTrim s)
  | some (.arr l) => l.head?.map jsTrim

/-- Modelled from the spec: `isValidUrl` (lines 68–75) delegates to the
platform WHATWG `URL` parser, which is not part of this repository.  Following
spec §4.2 ("accepts only strings parseable as absolute URLs whose scheme is
`http` or `https`"), we model it as: the string starts with `http://` or
`https://` and has a nonempty remainder (host part). -/
def isValidUrl (url : String) : Bool :=
  (("http://".data.isPrefixOf url.data) && decide (7 < url.length)) ||
  (("https://".data.isPrefixOf url.data) && decide (8 < url.length))

/-! ### Header name and auth-type constants

Modelled from the spec and repository docs: the constants are imported from
the external `@mcp-abap-adt/interfaces` package, which is not under `src/`;
their values are fixed by the repository's docs (`ARCHITECTURE.md`,
`PRIORITY_DIAGRAM.md`), by the previous in-repo version of the validator that
used the string literals directly, and by the test expectations on error
messages. -/

def HEADER_SAP_DESTINATION_SERVICE : String := "x-sap-destination"

def HEADER_MCP_DESTINATION : String := "x-mcp-destination"

def HEADER_BTP_DESTINATION : String := "x-btp-destination"

def HEADER_MCP_URL : String := "x-mcp-url"

def HEADER_SAP_CLIENT : String := "x-sap-client"

def HEADER_SAP_LOGIN : String := "x-sap-login"

def HEADER_SAP_PASSWORD : String := "x-sap-password"

def HEADER_SAP_URL : String := "x-sap-url"

def HEADER_SAP_JWT_TOKEN : String := "x-sap-jwt-token"

def HEADER_SAP_AUTH_TYPE : String := "x-sap-auth-type"

def HEADER_SAP_REFRESH_TOKEN : String := "x-sap-refresh-token"

def HEADER_SAP_UAA_URL : String := "x-sap-uaa-url"

/-- Modelled from the spec (§4.3: the UAA triple "is read from either of two
header-name aliases per field"); the alias constants live in the external
interfaces package.  No claim depends on the alias spelling. -/
def HEADER_UAA_URL : String := "uaa-url"

def HEADER_SAP_UAA_CLIENT_ID : String := "x-sap-uaa-client-id"

def HEADER_UAA_CLIENT_ID : String := "uaa-client-id"

def HEADER_SAP_UAA_CLIENT_SECRET : String := "x-sap-uaa-client-secret"

def HEADER_UAA_CLIENT_SECRET : String := "uaa-client-secret"

def AUTH_TYPE_JWT : String := "jwt"

def AUTH_TYPE_BASIC : String := "basic"

def AUTH_TYPE_XSUAA : String := "xsuaa"

/-- `AuthMethodPriority` enum: SAP_DESTINATION(4) > MCP_DESTINATION(3) >
DIRECT_JWT(2) > BASIC(1) > NONE(0) (interfaces package; values per the
docs and spec §3). -/
inductive AuthMethodPriority where
  | NONE
  | BASIC
  | DIRECT_JWT
  | MCP_DESTINATION
  | SAP_DESTINATION
deriving Repr, DecidableEq

/-- The numeric value of each `AuthMethodPriority` member. -/
def AuthMethodPriority.rank : AuthMethodPriority → Nat
  | .SAP_DESTINATION => 4
  | .MCP_DESTINATION => 3
  | .DIRECT_JWT => 2
  | .BASIC => 1
  | .NONE => 0

/-- Reverse enum mapping `AuthMethodPriority[p]` (member name as a string). -/
def AuthMethodPriority.enumName : AuthMethodPriority → String
  | .SAP_DESTINATION => "SAP_DESTINATION"
  | .MCP_DESTINATION => "MCP_DESTINATION"
  | .DIRECT_JWT => "DIRECT_JWT"
  | .BASIC => "BASIC"
  | .NONE => "NONE"

/-- `ValidatedAuthConfig` (interfaces package / `types.ts`): optional fields
that the source leaves out of an object literal are `none`. -/
structure ValidatedAuthConfig where
  priority : AuthMethodPriority
  authType : String
  sapUrl : String
  sapClient : Option String := none
  destination : Option String := none
  username : Option String := none
  password : Option String := none
  jwtToken : Option String := none
  refreshToken : Option String := none
  uaaUrl : Option String := none
  uaaClientId : Option String := none
  uaaClientSecret : Option String := none
  errors : List String
  warnings : List String
deriving Repr, DecidableEq

/-- `HeaderValidationResult`: `config` is absent (`none`) when the source does
not set it. -/
structure HeaderValidationResult where
  isValid : Bool
  config : Option ValidatedAuthConfig := none
  errors : List String
  warnings : List String
deriving Repr, DecidableEq

/-- JS `a || b` on `string | undefined` values. -/
def jsOrStr (a b : Option String) : Option String :=
  if truthyStr a then a else b

/-- `validateSapDestinationAuth` (lines 82–144). -/
def validateSapDestinationAuth (headers : Headers) : Option ValidatedAuthConfig :=
  let destinationRaw := rawHeaderValue headers HEADER_SAP_DESTINATION_SERVICE
  if !truthyVal destinationRaw then none
  else
    let destination := getHeaderValue headers HEADER_SAP_DESTINATION_SERVICE
    if !truthyStr destination then
      some { priority := .NONE, authType := AUTH_TYPE_JWT, sapUrl := "",
             errors := [HEADER_SAP_DESTINATION_SERVICE ++ " header is empty"],
             warnings := [] }
    else
      let sapClient := getHeaderValue headers HEADER_SAP_CLIENT
      let username := getHeaderValue headers HEADER_SAP_LOGIN
      let password := getHeaderValue headers HEADER_SAP_PASSWORD
      let sapUrl := getHeaderValue headers HEADER_SAP_URL
      let warnings1 : List String :=
        if truthyStr sapUrl then
          [HEADER_SAP_URL ++ " is ignored when " ++ HEADER_SAP_DESTINATION_SERVICE ++
           " is present (URL is loaded from destination service key or .env file)"]
        else []
      let jwtToken := getHeaderValue headers HEADER_SAP_JWT_TOKEN
      let warnings2 : List String := warnings1 ++
        (if truthyStr jwtToken then
          [HEADER_SAP_JWT_TOKEN ++ " is ignored when " ++ HEADER_SAP_DESTINATION_SERVICE ++
           " is present (destination-based auth takes priority)"]
         else [])
      let authType := getHeaderValue headers HEADER_SAP_AUTH_TYPE
      let warnings3 : List String := warnings2 ++
        (if truthyStr authType then
          [HEADER_SAP_AUTH_TYPE ++ " is ignored when " ++ HEADER_SAP_DESTINATION_SERVICE ++
           " is present (always uses JWT)"]
         else [])
      some { priority := .SAP_DESTINATION, authType := AUTH_TYPE_JWT, sapUrl := "",
             sapClient := sapClient, destination := destination,
             username := username, password := password,
             errors := [], warnings := warnings3 }

/-- `validateMcpDestinationAuth` (lines 152–208). -/
def validateMcpDestinationAuth (headers : Headers) (sapUrl : Option String) :
    Option ValidatedAuthConfig :=
  let destinationRaw := rawHeaderValue headers HEADER_MCP_DESTINATION
  if !truthyVal destinationRaw then none
  else
    let destination := getHeaderValue headers HEADER_MCP_DESTINATION
    if !truthyStr destination then
      some { priority := .NONE, authType := AUTH_TYPE_JWT, sapUrl := "",
             errors := [HEADER_MCP_DESTINATION ++ " header is empty"],
             warnings := [] }
    else
      let warnings1 : List String :=
        if truthyStr sapUrl then
          [HEADER_SAP_URL ++ " is ignored when " ++ HEADER_MCP_DESTINATION ++
           " is present (URL is loaded from destination service key or .env file)"]
        else []
      let authType := getHeaderValue headers HEADER_SAP_AUTH_TYPE
      let warnings2 : List String := warnings1 ++
        (if truthyStr authType then
          [HEADER_SAP_AUTH_TYPE ++ " is ignored when " ++ HEADER_MCP_DESTINATION ++
           " is present (always uses JWT)"]
         else [])
      let sapClient := getHeaderValue headers HEADER_SAP_CLIENT
      let jwtToken := getHeaderValue headers HEADER_SAP_JWT_TOKEN
      let warnings3 : List String := warnings2 ++
        (if truthyStr jwtToken then
          [HEADER_SAP_JWT_TOKEN ++ " is ignored when " ++ HEADER_MCP_DESTINATION ++
           " is present (destination-based auth takes priority)"]
         else [])
      some { priority := .MCP_DESTINATION, authType := AUTH_TYPE_JWT, sapUrl := "",
             sapClient := sapClient, destination := destination,
             errors := [], warnings := warnings3 }

/-- `validateDirectJwtAuth` (lines 217–272). -/
def validateDirectJwtAuth (headers : Headers) (sapUrl : String) (authType : String) :
    Option ValidatedAuthConfig :=
  if !(authType == AUTH_TYPE_JWT) && !(authType == AUTH_TYPE_XSUAA) then none
  else
    match getHeaderValue headers HEADER_SAP_JWT_TOKEN with
    | none => none
    | some jwtToken =>
      if jwtToken == "" then none
      else
        let errors : List String :=
          if jwtToken.length < 10 then
            [HEADER_SAP_JWT_TOKEN ++ " appears to be invalid (too short)"]
          else []
        let refreshToken := getHeaderValue headers HEADER_SAP_REFRESH_TOKEN
        let uaaUrl := jsOrStr (getHeaderValue headers HEADER_SAP_UAA_URL)
          (getHeaderValue headers HEADER_UAA_URL)
        let uaaClientId := jsOrStr (getHeaderValue headers HEADER_SAP_UAA_CLIENT_ID)
          (getHeaderValue headers HEADER_UAA_CLIENT_ID)
        let uaaClientSecret := jsOrStr (getHeaderValue headers HEADER_SAP_UAA_CLIENT_SECRET)
          (getHeaderValue headers HEADER_UAA_CLIENT_SECRET)
        let warnings : List String :=
          if (truthyStr uaaUrl || truthyStr uaaClientId || truthyStr uaaClientSecret) &&
             (!truthyStr uaaUrl || !truthyStr uaaClientId || !truthyStr uaaClientSecret) then
            ["UAA headers (" ++ HEADER_SAP_UAA_URL ++ ", " ++ HEADER_SAP_UAA_CLIENT_ID ++
             ", " ++ HEADER_SAP_UAA_CLIENT_SECRET ++ ") should be provided together for token refresh"]
          else []
        let sapClient := getHeaderValue headers HEADER_SAP_CLIENT
        some { priority := .DIRECT_JWT, authType := authType, sapUrl := sapUrl,
               sapClient := sapClient, jwtToken := some jwtToken,
               refreshToken := refreshToken, uaaUrl := uaaUrl,
               uaaClientId := uaaClientId, uaaClientSecret := uaaClientSecret,
               errors := errors, warnings := warnings }

/-- `validateBasicAuth` (lines 277–328). -/
def validateBasicAuth (headers : Headers) (sapUrl : String) (authType : String) :
    Option ValidatedAuthConfig :=
  if !(authType == AUTH_TYPE_BASIC) then none
  else
    let usernameRaw := rawHeaderValue headers HEADER_SAP_LOGIN
    let passwordRaw := rawHeaderValue headers HEADER_SAP_PASSWORD
    if !truthyVal usernameRaw || !truthyVal passwordRaw then none
    else
      let username := getHeaderValue headers HEADER_SAP_LOGIN
      let password := getHeaderValue headers HEADER_SAP_PASSWORD
      let errors : List String :=
        (if !truthyStr username then [HEADER_SAP_LOGIN ++ " header is empty"] else []) ++
        (if !truthyStr password then [HEADER_SAP_PASSWORD ++ " header is empty"] else [])
      if 0 < errors.length then
        some { priority := .NONE, authType := authType, sapUrl := sapUrl,
               errors := errors, warnings := [] }
      else
        some { priority := .BASIC, authType := authType, sapUrl := sapUrl,
               username := username, password := password,
               errors := [], warnings := [] }

/-- Lines 496–516 of `validateAuthHeaders`: given the resolver-level errors
and warnings accumulated so far and the list of produced candidates, select
the highest-priority candidate (`configs.reduce`, first element wins ties) and
merge; when no candidate exists, append the synthesized diagnostics
(`extraErrors`, lines 473–487) instead. -/
def selectAndMerge (errors2 warnings2 : List String)
    (configs : List ValidatedAuthConfig) (extraErrors : List String) :
    HeaderValidationResult :=
  match configs with
  | [] => { isValid := false, config := none,
            errors := errors2 ++ extraErrors, warnings := warnings2 }
  | c0 :: rest =>
    let selectedConfig := rest.foldl
      (fun prev current =>
        if prev.priority.rank < current.priority.rank then current else prev) c0
    let samePriorityConfigs := (c0 :: rest).filter
      (fun c => c.priority == selectedConfig.priority)
    let warnings3 := warnings2 ++
      (if 1 < samePriorityConfigs.length then
        ["Multiple authentication methods with same priority detected, using: " ++
         selectedConfig.priority.enumName]
       else [])
    let allErrors := errors2 ++ selectedConfig.errors
    let allWarnings := warnings3 ++ selectedConfig.warnings
    { isValid := allErrors.isEmpty, config := some selectedConfig,
      errors := allErrors, warnings := allWarnings }

/-- Lines 392–516 of `validateAuthHeaders`: the part reached when neither
destination validator returned a config.  `sapDestinationConfig` and
`mcpDestinationConfig` are the values of the source's local variables at that
point (both `null` on every actual path); the checks of lines 447 and 466
reference them literally. -/
def validateAuthHeadersRest (headers : Headers) (sapUrl : Option String)
    (sapDestinationConfig mcpDestinationConfig : Option ValidatedAuthConfig) :
    HeaderValidationResult :=
  match sapUrl with
  | none => { isValid := false, config := none, errors := [], warnings := [] }
  | some u =>
    if u == "" then { isValid := false, config := none, errors := [], warnings := [] }
    else if !isValidUrl u then
      { isValid := false, config := none,
        errors := [HEADER_SAP_URL ++ " is not a valid URL: " ++ u], warnings := [] }
    else
      let hasSapLogin := truthyStr (getHeaderValue headers HEADER_SAP_LOGIN)
      let hasSapPassword := truthyStr (getHeaderValue headers HEADER_SAP_PASSWORD)
      let hasBasicAuthHeaders := hasSapLogin || hasSapPassword
      let errors1 : List String :=
        if hasBasicAuthHeaders && (!hasSapLogin || !hasSapPassword) then
          [HEADER_SAP_LOGIN ++ " and " ++ HEADER_SAP_PASSWORD ++ " must be provided together"]
        else []
      let satOpt := getHeaderValue headers HEADER_SAP_AUTH_TYPE
      let noAuthTypeBranch : List String × List String × List ValidatedAuthConfig :=
        (errors1 ++
          (if hasBasicAuthHeaders then
            [HEADER_SAP_AUTH_TYPE ++ " must be \"" ++ AUTH_TYPE_BASIC ++ "\" when " ++
             HEADER_SAP_LOGIN ++ " and " ++ HEADER_SAP_PASSWORD ++ " are present"]
           else if !mcpDestinationConfig.isSome && !sapDestinationConfig.isSome then
            [HEADER_SAP_AUTH_TYPE ++ " header is required when " ++
             HEADER_SAP_DESTINATION_SERVICE ++ " and " ++ HEADER_MCP_DESTINATION ++
             " are not present"]
           else []),
         [], [])
      let branch : List String × List String × List ValidatedAuthConfig :=
        match satOpt with
        | none => noAuthTypeBranch
        | some sat =>
          if sat == "" then noAuthTypeBranch
          else
            let authType := toLowerAscii sat
            if !([AUTH_TYPE_JWT, AUTH_TYPE_XSUAA, AUTH_TYPE_BASIC].contains authType) then
              (errors1 ++
                [HEADER_SAP_AUTH_TYPE ++ " must be one of: " ++
                 String.intercalate ", " [AUTH_TYPE_JWT, AUTH_TYPE_XSUAA, AUTH_TYPE_BASIC] ++
                 ", got: " ++ sat],
               [], [])
            else
              let warningsA : List String :=
                if hasBasicAuthHeaders && !(authType == AUTH_TYPE_BASIC) then
                  [HEADER_SAP_LOGIN ++ " and " ++ HEADER_SAP_PASSWORD ++ " are present but " ++
                   HEADER_SAP_AUTH_TYPE ++ " is not \"" ++ AUTH_TYPE_BASIC ++ "\""]
                else []
              let errorsA : List String :=
                if authType == AUTH_TYPE_BASIC && !hasBasicAuthHeaders then
                  [HEADER_SAP_AUTH_TYPE ++ " is \"" ++ AUTH_TYPE_BASIC ++ "\" but " ++
                   HEADER_SAP_LOGIN ++ " and " ++ HEADER_SAP_PASSWORD ++ " are missing"]
                else []
              let configs : List ValidatedAuthConfig :=
                if !mcpDestinationConfig.isSome then
                  (match validateDirectJwtAuth headers u authType with
                   | some c => [c]
                   | none => []) ++
                  (match validateBasicAuth headers u authType with
                   | some c => [c]
                   | none => [])
                else []
              (errors1 ++ errorsA, warningsA, configs)
      let extraErrors : List String :=
        match branch.2.2 with
        | _ :: _ => []
        | [] =>
          match satOpt with
          | some sat =>
            if sat == "" then
              match validateMcpDestinationAuth headers sapUrl with
              | some mcpConfig => if 0 < mcpConfig.errors.length then mcpConfig.errors else []
              | none => []
            else
              let authType := toLowerAscii sat
              if authType == AUTH_TYPE_JWT || authType == AUTH_TYPE_XSUAA then
                ["JWT authentication requires either " ++ HEADER_SAP_DESTINATION_SERVICE ++
                 ", " ++ HEADER_MCP_DESTINATION ++ ", or " ++ HEADER_SAP_JWT_TOKEN ++ " header"]
              else if authType == AUTH_TYPE_BASIC then
                ["Basic authentication requires " ++ HEADER_SAP_LOGIN ++ " and " ++
                 HEADER_SAP_PASSWORD ++ " headers"]
              else []
          | none =>
            match validateMcpDestinationAuth headers sapUrl with
            | some mcpConfig => if 0 < mcpConfig.errors.length then mcpConfig.errors else []
            | none => []
      selectAndMerge branch.1 branch.2.1 branch.2.2 extraErrors

/-- `validateAuthHeaders` (lines 336–517). -/
def validateAuthHeaders : Option Headers → HeaderValidationResult
  | none => { isValid := false, config := none, errors := [], warnings := [] }
  | some headers =>
    match validateSapDestinationAuth headers with
    | some cfg =>
      if cfg.errors.length == 0 then
        { isValid := true, config := some cfg, errors := [], warnings := cfg.warnings }
      else
        { isValid := false, config := none, errors := cfg.errors, warnings := cfg.warnings }
    | none =>
      let sapUrl := getHeaderValue headers HEADER_SAP_URL
      match validateMcpDestinationAuth headers sapUrl with
      | some cfg =>
        if cfg.errors.length == 0 then
          { isValid := true, config := some cfg, errors := [], warnings := cfg.warnings }
        else
          { isValid := false, config := none, errors := cfg.errors, warnings := cfg.warnings }
      | none => validateAuthHeadersRest headers sapUrl none none

/-- `ProxyHeaderValidationResult` (lines 526–533). -/
structure ProxyHeaderValidationResult where
  isValid : Bool
  hasBtpDestination : Bool
  hasMcpDestination : Bool
  hasMcpUrl : Bool
  errors : List String
  warnings : List String
deriving Repr, DecidableEq

/-- `validateProxyHeaders` (lines 546–599). -/
def validateProxyHeaders : Option Headers → ProxyHeaderValidationResult
  | none =>
    { isValid := false, hasBtpDestination := false, hasMcpDestination := false,
      hasMcpUrl := false, errors := [], warnings := [] }
  | some headers =>
    let btpDestination := getHeaderValue headers HEADER_BTP_DESTINATION
    let mcpDestination := getHeaderValue headers HEADER_MCP_DESTINATION
    let mcpUrl := getHeaderValue headers HEADER_MCP_URL
    let hasBtpDestination := truthyStr btpDestination
    let hasMcpDestination := truthyStr mcpDestination
    let hasMcpUrl := truthyStr mcpUrl
    let errors1 : List String :=
      if hasBtpDestination &&
         (!truthyStr btpDestination || (jsTrim (btpDestination.getD "")).length == 0) then
        [HEADER_BTP_DESTINATION ++ " header is empty"]
      else []
    let errors2 : List String := errors1 ++
      (if hasMcpDestination &&
          (!truthyStr mcpDestination || (jsTrim (mcpDestination.getD "")).length == 0) then
        [HEADER_MCP_DESTINATION ++ " header is empty"]
       else [])
    let errors3 : List String := errors2 ++
      (if hasMcpUrl && !isValidUrl (mcpUrl.getD "") then
        [HEADER_MCP_URL ++ " is not a valid URL: " ++ mcpUrl.getD ""]
       else [])
    let warnings1 : List String :=
      if !(hasBtpDestination || hasMcpDestination || hasMcpUrl) then
        ["No proxy headers found (" ++ HEADER_BTP_DESTINATION ++ ", " ++
         HEADER_MCP_DESTINATION ++ ", or " ++ HEADER_MCP_URL ++ ")"]
      else []
    { isValid := errors3.isEmpty, hasBtpDestination := hasBtpDestination,
      hasMcpDestination := hasMcpDestination, hasMcpUrl := hasMcpUrl,
      errors := errors3, warnings := warnings1 }

/-- `isProxyRequest` (lines 612–619). -/
def isProxyRequest : Option Headers → Bool
  | none => false
  | some headers =>
    let validation := validateProxyHeaders (some headers)
    validation.hasBtpDestination || validation.hasMcpDestination || validation.hasMcpUrl

/-- `isMcpServerRequest` (lines 631–651). -/
def isMcpServerRequest : Option Headers → Bool
  | none => false
  | some headers =>
    let hasSapDestination := truthyStr (getHeaderValue headers HEADER_SAP_DESTINATION_SERVICE)
    let hasMcpDestination := truthyStr (getHeaderValue headers HEADER_MCP_DESTINATION)
    let hasSapUrl := truthyStr (getHeaderValue headers HEADER_SAP_URL)
    let hasSapJwtToken := truthyStr (getHeaderValue headers HEADER_SAP_JWT_TOKEN)
    let hasBtpDestination := truthyStr (getHeaderValue headers HEADER_BTP_DESTINATION)
    let hasMcpUrl := truthyStr (getHeaderValue headers HEADER_MCP_URL)
    let hasMcpAuthHeaders := hasSapDestination || hasMcpDestination || hasSapUrl || hasSapJwtToken
    let hasProxyHeaders := hasBtpDestination || hasMcpUrl
    hasMcpAuthHeaders && !hasProxyHeaders

/-- A header is "present" in the sense of the routing classifier: it yields a
truthy (nonempty, trimmed) value. -/
def headerPresent (headers : Headers) (name : String) : Bool :=
  truthyStr (getHeaderValue headers name)

/-- Claim C7's wording for the proxy classifier: at least one of the three
routing headers is present. -/
def isProxyRequestSpec (headers : Headers) : Bool :=
  headerPresent headers HEADER_BTP_DESTINATION ||
  headerPresent headers HEADER_MCP_DESTINATION ||
  headerPresent headers HEADER_MCP_URL

/-- Claim C7's wording for the MCP-server classifier: at least one
authentication-relevant header present and neither proxy-only header present. -/
def isMcpServerRequestSpec (headers : Headers) : Bool :=
  (headerPresent headers HEADER_SAP_DESTINATION_SERVICE ||
   headerPresent headers HEADER_MCP_DESTINATION ||
   headerPresent headers HEADER_SAP_URL ||
   headerPresent headers HEADER_SAP_JWT_TOKEN) &&
  !(headerPresent headers HEADER_BTP_DESTINATION ||
    headerPresent headers HEADER_MCP_URL)

end HeaderValidator

namespace HeaderValidator

/-! ### Helper lemmas -/

/-- When a header name is already lowercase, the dual-case raw lookup is the
plain lookup. -/
theorem rawHeaderValue_of_lower_fixed (h : Headers) (n : String)
    (hn : toLowerAscii n = n) : rawHeaderValue h n = lookupH h n := by
  simp only [rawHeaderValue, hn]
  split <;> rfl

/-- A header that yields an extracted value has a truthy raw value. -/
theorem raw_truthy_of_get_some (h : Headers) (n : String) (v : String)
    (hv : getHeaderValue h n = some v) : truthyVal (rawHeaderValue h n) = true := by
  unfold getHeaderValue at hv
  cases hr : rawHeaderValue h n with
  | none => rw [hr] at hv; exact absurd hv (by simp)
  | some hval =>
    cases hval with
    | str s =>
      rw [hr] at hv
      by_cases hs : s == ""
      · simp [hs] at hv
      · simp [truthyVal, hs]
    | arr l => simp [truthyVal]

/-- The SAP-destination validator is not applicable when its raw trigger value
is falsy. -/
theorem validateSapDestinationAuth_not_applicable (h : Headers)
    (hr : truthyVal (rawHeaderValue h HEADER_SAP_DESTINATION_SERVICE) = false) :
    validateSapDestinationAuth h = none := by
  simp [validateSapDestinationAuth, hr]

/-- The MCP-destination validator is not applicable when its raw trigger value
is falsy. -/
theorem validateMcpDestinationAuth_not_applicable (h : Headers) (sapUrl : Option String)
    (hr : truthyVal (rawHeaderValue h HEADER_MCP_DESTINATION) = false) :
    validateMcpDestinationAuth h sapUrl = none := by
  simp [validateMcpDestinationAuth, hr]

/-- The SAP-destination validator on a raw-truthy trigger whose extracted
value is falsy returns the terminal `NONE`-priority error config. -/
theorem validateSapDestinationAuth_empty (h : Headers)
    (hr : truthyVal (rawHeaderValue h HEADER_SAP_DESTINATION_SERVICE) = true)
    (hg : truthyStr (getHeaderValue h HEADER_SAP_DESTINATION_SERVICE) = false) :
    validateSapDestinationAuth h =
      some { priority := .NONE, authType := AUTH_TYPE_JWT, sapUrl := "",
             errors := [HEADER_SAP_DESTINATION_SERVICE ++ " header is empty"],
             warnings := [] } := by
  simp [validateSapDestinationAuth, hr, hg]

/-- The MCP-destination validator on a raw-truthy trigger whose extracted
value is falsy returns the terminal `NONE`-priority error config. -/
theorem validateMcpDestinationAuth_empty (h : Headers) (sapUrl : Option String)
    (hr : truthyVal (rawHeaderValue h HEADER_MCP_DESTINATION) = true)
    (hg : truthyStr (getHeaderValue h HEADER_MCP_DESTINATION) = false) :
    validateMcpDestinationAuth h sapUrl =
      some { priority := .NONE, authType := AUTH_TYPE_JWT, sapUrl := "",
             errors := [HEADER_MCP_DESTINATION ++ " header is empty"],
             warnings := [] } := by
  simp [validateMcpDestinationAuth, hr, hg]

/-- The SAP-destination validator on a nonempty extracted destination returns
a clean `SAP_DESTINATION` candidate carrying that destination. -/
theorem validateSapDestinationAuth_clean (h : Headers) (d : String)
    (hd : getHeaderValue h HEADER_SAP_DESTINATION_SERVICE = some d) (hne : d ≠ "") :
    ∃ cfg, validateSapDestinationAuth h = some cfg ∧
      cfg.priority = .SAP_DESTINATION ∧ cfg.errors = [] ∧ cfg.destination = some d := by
  have hr := raw_truthy_of_get_some h HEADER_SAP_DESTINATION_SERVICE d hd
  simp [validateSapDestinationAuth, hr, truthyStr, hd, hne]

end HeaderValidator

namespace HeaderValidator

/-- For a lowercase name mapped to a raw string value, the extracted header
value is the trimmed string (when the raw string is nonempty). -/
theorem get_of_lookup_str (h : Headers) (n s : String)
    (hn : toLowerAscii n = n) (hl : lookupH h n = some (.str s)) (hs : s ≠ "") :
    getHeaderValue h n = some (jsTrim s) := by
  simp [getHeaderValue, rawHeaderValue_of_lower_fixed h n hn, hl, truthyVal, hs]

/-- For a lowercase name mapped to a nonempty raw string, the raw dual-case
lookup is truthy. -/
theorem raw_truthy_of_lookup_str (h : Headers) (n s : String)
    (hn : toLowerAscii n = n) (hl : lookupH h n = some (.str s)) (hs : s ≠ "") :
    truthyVal (rawHeaderValue h n) = true := by
  simp [rawHeaderValue_of_lower_fixed h n hn, hl, truthyVal, hs]

/-- C7: for every header map, `isProxyRequest` returns true exactly when at
least one of the three routing headers (`x-btp-destination`,
`x-mcp-destination`, `x-mcp-url`) is present, and `isMcpServerRequest` returns
true exactly when at least one authentication-relevant header
(`x-sap-destination`, `x-mcp-destination`, `x-sap-url`, `x-sap-jwt-token`) is
present and neither of the two proxy-only headers (`x-btp-destination`,
`x-mcp-url`) is present. -/
theorem claim7_theorem (h : Headers) :
    isProxyRequest (some h) = isProxyRequestSpec h ∧
    isMcpServerRequest (some h) = isMcpServerRequestSpec h :=
  ⟨rfl, rfl⟩

/-- C8: some header maps make `validateAuthHeaders` return a populated
`config` (a `DIRECT_JWT`-priority candidate for a too-short token; a
`NONE`-priority candidate for whitespace-only basic credentials) while
`isValid = false` and `errors` is nonempty: presence of `config` does not
imply validity. -/
theorem claim8_theorem :
    ((validateAuthHeaders (some [(HEADER_SAP_URL, .str "https://test.sap.com"),
        (HEADER_SAP_AUTH_TYPE, .str "jwt"),
        (HEADER_SAP_JWT_TOKEN, .str "short")])).isValid = false ∧
     (validateAuthHeaders (some [(HEADER_SAP_URL, .str "https://test.sap.com"),
        (HEADER_SAP_AUTH_TYPE, .str "jwt"),
        (HEADER_SAP_JWT_TOKEN, .str "short")])).errors ≠ [] ∧
     ((validateAuthHeaders (some [(HEADER_SAP_URL, .str "https://test.sap.com"),
        (HEADER_SAP_AUTH_TYPE, .str "jwt"),
        (HEADER_SAP_JWT_TOKEN, .str "short")])).config.map fun c => c.priority) =
       some AuthMethodPriority.DIRECT_JWT) ∧
    ((validateAuthHeaders (some [(HEADER_SAP_URL, .str "https://test.sap.com"),
        (HEADER_SAP_AUTH_TYPE, .str "basic"), (HEADER_SAP_LOGIN, .str " "),
        (HEADER_SAP_PASSWORD, .str " ")])).isValid = false ∧
     (validateAuthHeaders (some [(HEADER_SAP_URL, .str "https://test.sap.com"),
        (HEADER_SAP_AUTH_TYPE, .str "basic"), (HEADER_SAP_LOGIN, .str " "),
        (HEADER_SAP_PASSWORD, .str " ")])).errors ≠ [] ∧
     ((validateAuthHeaders (some [(HEADER_SAP_URL, .str "https://test.sap.com"),
        (HEADER_SAP_AUTH_TYPE, .str "basic"), (HEADER_SAP_LOGIN, .str " "),
        (HEADER_SAP_PASSWORD, .str " ")])).config.map fun c => c.priority) =
       some AuthMethodPriority.NONE) := by
  decide

/-- C9: at the destination triggers, a raw empty-string value behaves as
absent (the validator is not applicable, so resolution falls through), while a
whitespace-only value fires the trigger and yields the terminal
"header is empty" error config. -/
theorem claim9_theorem (h : Headers) (sapUrl : Option String) :
    (lookupH h HEADER_SAP_DESTINATION_SERVICE = some (HeaderVal.str "") →
      validateSapDestinationAuth h = none) ∧
    (lookupH h HEADER_MCP_DESTINATION = some (HeaderVal.str "") →
      validateMcpDestinationAuth h sapUrl = none) ∧
    (∀ s, lookupH h HEADER_SAP_DESTINATION_SERVICE = some (HeaderVal.str s) → s ≠ "" →
      jsTrim s = "" →
      validateSapDestinationAuth h =
        some { priority := .NONE, authType := AUTH_TYPE_JWT, sapUrl := "",
               errors := [HEADER_SAP_DESTINATION_SERVICE ++ " header is empty"],
               warnings := [] }) ∧
    (∀ s, lookupH h HEADER_MCP_DESTINATION = some (HeaderVal.str s) → s ≠ "" →
      jsTrim s = "" →
      validateMcpDestinationAuth h sapUrl =
        some { priority := .NONE, authType := AUTH_TYPE_JWT, sapUrl := "",
               errors := [HEADER_MCP_DESTINATION ++ " header is empty"],
               warnings := [] }) := by
  refine ⟨?_, ?_, ?_, ?_⟩
  · intro hl
    apply validateSapDestinationAuth_not_applicable
    simp [rawHeaderValue_of_lower_fixed h HEADER_SAP_DESTINATION_SERVICE (by decide), hl,
      truthyVal]
  · intro hl
    apply validateMcpDestinationAuth_not_applicable
    simp [rawHeaderValue_of_lower_fixed h HEADER_MCP_DESTINATION (by decide), hl, truthyVal]
  · intro s hl hs ht
    apply validateSapDestinationAuth_empty h
      (raw_truthy_of_lookup_str h HEADER_SAP_DESTINATION_SERVICE s (by decide) hl hs)
    simp [get_of_lookup_str h HEADER_SAP_DESTINATION_SERVICE s (by decide) hl hs, ht, truthyStr]
  · intro s hl hs ht
    apply validateMcpDestinationAuth_empty h sapUrl
      (raw_truthy_of_lookup_str h HEADER_MCP_DESTINATION s (by decide) hl hs)
    simp [get_of_lookup_str h HEADER_MCP_DESTINATION s (by decide) hl hs, ht, truthyStr]

/-- Witness for C9 at concrete inputs: empty string falls through, a
whitespace-only value produces the terminal error config. -/
theorem claim9_witness :
    validateSapDestinationAuth [(HEADER_SAP_DESTINATION_SERVICE, HeaderVal.str "")] = none ∧
    validateMcpDestinationAuth [(HEADER_MCP_DESTINATION, HeaderVal.str "")] none = none ∧
    validateSapDestinationAuth [(HEADER_SAP_DESTINATION_SERVICE, HeaderVal.str "   ")] =
      some { priority := .NONE, authType := AUTH_TYPE_JWT, sapUrl := "",
             errors := [HEADER_SAP_DESTINATION_SERVICE ++ " header is empty"],
             warnings := [] } ∧
    validateMcpDestinationAuth [(HEADER_MCP_DESTINATION, HeaderVal.str "   ")] none =
      some { priority := .NONE, authType := AUTH_TYPE_JWT, sapUrl := "",
             errors := [HEADER_MCP_DESTINATION ++ " header is empty"],
             warnings := [] } :=
  ⟨(claim9_theorem _ none).1 (by decide),
   (claim9_theorem _ none).2.1 (by decide),
   (claim9_theorem _ none).2.2.1 "   " (by decide) (by decide) (by decide),
   (claim9_theorem _ none).2.2.2 "   " (by decide) (by decide) (by decide)⟩

/-- C2: whenever the SAP-destination header yields a nonempty (trimmed)
value, `validateAuthHeaders` selects the SAP-destination method: the result is
valid and its config has priority `SAP_DESTINATION` and carries the
destination, no matter which other headers are present. -/
theorem claim2_theorem (h : Headers) (d : String)
    (hd : getHeaderValue h HEADER_SAP_DESTINATION_SERVICE = some d) (hne : d ≠ "") :
    (validateAuthHeaders (some h)).isValid = true ∧
    ∃ cfg, (validateAuthHeaders (some h)).config = some cfg ∧
      cfg.priority = AuthMethodPriority.SAP_DESTINATION ∧ cfg.destination = some d := by
  obtain ⟨cfg, hc, hp, he, hdst⟩ := validateSapDestinationAuth_clean h d hd hne
  have hres : validateAuthHeaders (some h) =
      { isValid := true, config := some cfg, errors := [], warnings := cfg.warnings } := by
    simp [validateAuthHeaders, hc, he]
  rw [hres]
  exact ⟨rfl, cfg, rfl, hp, hdst⟩

/-- Witness for C2: the SAP-destination header wins even with every other
authentication header present. -/
theorem claim2_witness :
    (validateAuthHeaders (some [(HEADER_SAP_DESTINATION_SERVICE, HeaderVal.str "S4HANA_E19"),
      (HEADER_MCP_DESTINATION, HeaderVal.str "TRIAL"),
      (HEADER_SAP_URL, HeaderVal.str "https://test.sap.com"),
      (HEADER_SAP_AUTH_TYPE, HeaderVal.str "basic"),
      (HEADER_SAP_JWT_TOKEN, HeaderVal.str "eyJhbGciOiJSUzI1NiJ9"),
      (HEADER_SAP_LOGIN, HeaderVal.str "user"),
      (HEADER_SAP_PASSWORD, HeaderVal.str "pass")])).isValid = true ∧
    ∃ cfg, (validateAuthHeaders (some [(HEADER_SAP_DESTINATION_SERVICE, HeaderVal.str "S4HANA_E19"),
      (HEADER_MCP_DESTINATION, HeaderVal.str "TRIAL"),
      (HEADER_SAP_URL, HeaderVal.str "https://test.sap.com"),
      (HEADER_SAP_AUTH_TYPE, HeaderVal.str "basic"),
      (HEADER_SAP_JWT_TOKEN, HeaderVal.str "eyJhbGciOiJSUzI1NiJ9"),
      (HEADER_SAP_LOGIN, HeaderVal.str "user"),
      (HEADER_SAP_PASSWORD, HeaderVal.str "pass")])).config = some cfg ∧
      cfg.priority = AuthMethodPriority.SAP_DESTINATION ∧ cfg.destination = some "S4HANA_E19" :=
  claim2_theorem _ "S4HANA_E19" (by decide) (by decide)

/-- C6 (amended): when the SAP-destination header is present with a truthy
raw value (nonempty string or an array) whose extracted value trims to empty,
`validateAuthHeaders` fails with exactly the one error naming that header,
regardless of any other headers in the map. -/
theorem claim6_amended (h : Headers)
    (hr : truthyVal (rawHeaderValue h HEADER_SAP_DESTINATION_SERVICE) = true)
    (hg : truthyStr (getHeaderValue h HEADER_SAP_DESTINATION_SERVICE) = false) :
    validateAuthHeaders (some h) =
      { isValid := false, config := none,
        errors := [HEADER_SAP_DESTINATION_SERVICE ++ " header is empty"],
        warnings := [] } := by
  have hc := validateSapDestinationAuth_empty h hr hg
  simp [validateAuthHeaders, hc]

/-- Counterexample to C6 as stated: a SAP-destination header present with the
raw empty-string value (which trims to empty) yields zero errors, not exactly
one. -/
theorem claim6_counterexample :
    (validateAuthHeaders
      (some [(HEADER_SAP_DESTINATION_SERVICE, HeaderVal.str "")])).errors = [] := by
  decide

/-- Witness for C6 (amended): whitespace-only destination, with another
destination header also present. -/
theorem claim6_witness :
    validateAuthHeaders (some [(HEADER_SAP_DESTINATION_SERVICE, HeaderVal.str "   "),
      (HEADER_MCP_DESTINATION, HeaderVal.str "TRIAL"),
      (HEADER_SAP_URL, HeaderVal.str "https://test.sap.com")]) =
      { isValid := false, config := none,
        errors := [HEADER_SAP_DESTINATION_SERVICE ++ " header is empty"],
        warnings := [] } :=
  claim6_amended _ (by decide) (by decide)

end HeaderValidator

namespace HeaderValidator

/-- Counterexample to C1 as stated: a header map with none of the four trigger
headers but with a (valid) `x-sap-url` yields a nonempty errors list (the
missing-auth-type error), contradicting "errors=[] regardless of which other
headers are present". -/
theorem claim1_counterexample :
    (validateAuthHeaders
      (some [(HEADER_SAP_URL, HeaderVal.str "https://test.sap.com")])).errors ≠ [] := by
  decide

/-- C1 (amended): for every header map in which none of the four trigger
headers is present and the `x-sap-url` header yields no value (absent, empty,
or whitespace-only), `validateAuthHeaders` returns `isValid = false` with
empty errors and warnings, regardless of which other headers (such as
`x-sap-auth-type`) are present. -/
theorem claim1_amended (h : Headers)
    (h1 : truthyVal (rawHeaderValue h HEADER_SAP_DESTINATION_SERVICE) = false)
    (h2 : truthyVal (rawHeaderValue h HEADER_MCP_DESTINATION) = false)
    (h3 : truthyStr (getHeaderValue h HEADER_SAP_JWT_TOKEN) = false)
    (h4 : truthyVal (rawHeaderValue h HEADER_SAP_LOGIN) = false ∨
          truthyVal (rawHeaderValue h HEADER_SAP_PASSWORD) = false)
    (h5 : truthyStr (getHeaderValue h HEADER_SAP_URL) = false) :
    validateAuthHeaders (some h) =
      { isValid := false, config := none, errors := [], warnings := [] } := by
  have hs := validateSapDestinationAuth_not_applicable h h1
  have hm := validateMcpDestinationAuth_not_applicable h
    (getHeaderValue h HEADER_SAP_URL) h2
  cases hu : getHeaderValue h HEADER_SAP_URL with
  | none =>
    rw [hu] at hm
    simp [validateAuthHeaders, hs, hm, validateAuthHeadersRest, hu]
  | some u =>
    have hu0 : u = "" := by
      rw [hu] at h5
      simpa [truthyStr] using h5
    subst hu0
    rw [hu] at hm
    simp [validateAuthHeaders, hs, hm, validateAuthHeadersRest, hu]

/-- Witness for C1 (amended): no trigger headers, no URL value, but another
header present. -/
theorem claim1_witness :
    validateAuthHeaders (some [(HEADER_SAP_AUTH_TYPE, HeaderVal.str "jwt"),
      (HEADER_SAP_CLIENT, HeaderVal.str "100")]) =
      { isValid := false, config := none, errors := [], warnings := [] } :=
  claim1_amended _ (by decide) (by decide) (by decide) (Or.inl (by decide)) (by decide)

end HeaderValidator

namespace HeaderValidator

/-- A string accepted by the URL check is nonempty. -/
theorem isValidUrl_ne_empty {u : String} (h : isValidUrl u = true) : u ≠ "" := by
  intro he
  subst he
  exact absurd h (by decide)

/-- A truthy extracted auth-type value whose lowercase form is a fixed
nonempty literal is itself nonempty. -/
theorem ne_empty_of_toLower_eq {a b : String} (hb : toLowerAscii "" ≠ b)
    (h : toLowerAscii a = b) : a ≠ "" := by
  intro he
  subst he
  exact hb h

/-- The direct-JWT validator on a nonempty too-short token produces a
`DIRECT_JWT` candidate whose only internal error is the too-short message. -/
theorem validateDirectJwtAuth_short (h : Headers) (u t : String)
    (htok : getHeaderValue h HEADER_SAP_JWT_TOKEN = some t) (htne : t ≠ "")
    (htlen : t.length < 10) :
    ∃ cfg, validateDirectJwtAuth h u AUTH_TYPE_JWT = some cfg ∧
      cfg.priority = .DIRECT_JWT ∧
      cfg.errors = [HEADER_SAP_JWT_TOKEN ++ " appears to be invalid (too short)"] := by
  simp [validateDirectJwtAuth, htok, htne, htlen]

/-- The basic-auth validator is not applicable under the `jwt` auth-type. -/
theorem validateBasicAuth_jwt (h : Headers) (u : String) :
    validateBasicAuth h u AUTH_TYPE_JWT = none := rfl

/-- The direct-JWT validator is not applicable under the `basic` auth-type. -/
theorem validateDirectJwtAuth_basic (h : Headers) (u : String) :
    validateDirectJwtAuth h u AUTH_TYPE_BASIC = none := rfl

/-- Counterexample to C4 as stated: valid URL, jwt auth-type and a 5-character
token, but an SAP-destination header is also present, so the result is valid
with zero errors rather than invalid with one. -/
theorem claim4_counterexample :
    (validateAuthHeaders (some [(HEADER_SAP_DESTINATION_SERVICE, HeaderVal.str "S4HANA_E19"),
      (HEADER_SAP_URL, HeaderVal.str "https://test.sap.com"),
      (HEADER_SAP_AUTH_TYPE, HeaderVal.str "jwt"),
      (HEADER_SAP_JWT_TOKEN, HeaderVal.str "short")])).isValid = true := by
  decide

/-- C4 (amended): for every header map with a valid URL header, the `jwt`
auth-type and a JWT-token header whose (nonempty) value is shorter than 10
characters — provided neither destination trigger is raw-present and the
login/password headers are not partially present — `validateAuthHeaders`
returns `isValid = false` with exactly one error, the too-short message naming
the JWT-token header. -/
theorem claim4_amended (h : Headers) (u a t : String)
    (hsd : truthyVal (rawHeaderValue h HEADER_SAP_DESTINATION_SERVICE) = false)
    (hmd : truthyVal (rawHeaderValue h HEADER_MCP_DESTINATION) = false)
    (hurl : getHeaderValue h HEADER_SAP_URL = some u)
    (hvu : isValidUrl u = true)
    (hat : getHeaderValue h HEADER_SAP_AUTH_TYPE = some a)
    (ha : toLowerAscii a = AUTH_TYPE_JWT)
    (htok : getHeaderValue h HEADER_SAP_JWT_TOKEN = some t)
    (htne : t ≠ "")
    (htlen : t.length < 10)
    (hlp : truthyStr (getHeaderValue h HEADER_SAP_LOGIN) =
           truthyStr (getHeaderValue h HEADER_SAP_PASSWORD)) :
    (validateAuthHeaders (some h)).isValid = false ∧
    (validateAuthHeaders (some h)).errors =
      [HEADER_SAP_JWT_TOKEN ++ " appears to be invalid (too short)"] := by
  have hs := validateSapDestinationAuth_not_applicable h hsd
  have hm := validateMcpDestinationAuth_not_applicable h (some u) hmd
  have hrest : validateAuthHeaders (some h) = validateAuthHeadersRest h (some u) none none := by
    simp [validateAuthHeaders, hs, hurl, hm]
  have hune : u ≠ "" := isValidUrl_ne_empty hvu
  have hane : a ≠ "" := ne_empty_of_toLower_eq (by decide) ha
  obtain ⟨cfgJ, hJ, hJp, hJe⟩ := validateDirectJwtAuth_short h u t htok htne htlen
  rw [hrest]
  simp [validateAuthHeadersRest, hune, hvu, hat, hane, ha, ← hlp, hJ, hJe,
    validateBasicAuth_jwt, selectAndMerge]
  exact fun hx => absurd hx (by decide)

/-- Witness for C4 (amended) at a concrete 5-character token. -/
theorem claim4_witness :
    (validateAuthHeaders (some [(HEADER_SAP_URL, HeaderVal.str "https://test.sap.com"),
      (HEADER_SAP_AUTH_TYPE, HeaderVal.str "jwt"),
      (HEADER_SAP_JWT_TOKEN, HeaderVal.str "short")])).isValid = false ∧
    (validateAuthHeaders (some [(HEADER_SAP_URL, HeaderVal.str "https://test.sap.com"),
      (HEADER_SAP_AUTH_TYPE, HeaderVal.str "jwt"),
      (HEADER_SAP_JWT_TOKEN, HeaderVal.str "short")])).errors =
      [HEADER_SAP_JWT_TOKEN ++ " appears to be invalid (too short)"] :=
  claim4_amended _ "https://test.sap.com" "jwt" "short" (by decide) (by decide) (by decide)
    (by decide) (by decide) (by decide) (by decide) (by decide) (by decide) (by decide)

end HeaderValidator

namespace HeaderValidator

/-- If either basic credential trims to a falsy value, any config the
basic-auth validator produces is the `NONE`-priority error config. -/
theorem validateBasicAuth_partial (h : Headers) (u : String)
    (hor : truthyStr (getHeaderValue h HEADER_SAP_LOGIN) = false ∨
           truthyStr (getHeaderValue h HEADER_SAP_PASSWORD) = false) :
    ∀ cfg, validateBasicAuth h u AUTH_TYPE_BASIC = some cfg →
      cfg.priority = AuthMethodPriority.NONE ∧ cfg.errors ≠ [] := by
  intro cfg hc
  rcases hor with hx | hx <;>
    simp [validateBasicAuth, hx] at hc <;>
    split at hc <;>
    (obtain ⟨-, hR⟩ := hc
     subst hR
     exact ⟨rfl, by simp⟩)

/-- Counterexample to C5 as stated: valid URL, basic auth-type and only a
login header, but an SAP-destination header is also present, so the result is
valid with no error instead of failing. -/
theorem claim5_counterexample :
    (validateAuthHeaders (some [(HEADER_SAP_DESTINATION_SERVICE, HeaderVal.str "S4HANA_E19"),
      (HEADER_SAP_URL, HeaderVal.str "https://test.sap.com"),
      (HEADER_SAP_AUTH_TYPE, HeaderVal.str "basic"),
      (HEADER_SAP_LOGIN, HeaderVal.str "user")])).isValid = true := by
  decide

/-- C5 (amended): for every header map with a valid URL header and the
`basic` auth-type in which exactly one of the login and password headers
yields a value — provided neither destination trigger is raw-present —
`validateAuthHeaders` returns `isValid = false` with at least one error, and
any selected config is never a `BASIC`-priority one populated with a single
credential. -/
theorem claim5_amended (h : Headers) (u a : String)
    (hsd : truthyVal (rawHeaderValue h HEADER_SAP_DESTINATION_SERVICE) = false)
    (hmd : truthyVal (rawHeaderValue h HEADER_MCP_DESTINATION) = false)
    (hurl : getHeaderValue h HEADER_SAP_URL = some u)
    (hvu : isValidUrl u = true)
    (hat : getHeaderValue h HEADER_SAP_AUTH_TYPE = some a)
    (ha : toLowerAscii a = AUTH_TYPE_BASIC)
    (hxor : truthyStr (getHeaderValue h HEADER_SAP_LOGIN) ≠
            truthyStr (getHeaderValue h HEADER_SAP_PASSWORD)) :
    (validateAuthHeaders (some h)).isValid = false ∧
    (validateAuthHeaders (some h)).errors ≠ [] ∧
    ∀ cfg, (validateAuthHeaders (some h)).config = some cfg →
      cfg.priority ≠ AuthMethodPriority.BASIC := by
  have hs := validateSapDestinationAuth_not_applicable h hsd
  have hm := validateMcpDestinationAuth_not_applicable h (some u) hmd
  have hrest : validateAuthHeaders (some h) = validateAuthHeadersRest h (some u) none none := by
    simp [validateAuthHeaders, hs, hurl, hm]
  have hune : u ≠ "" := isValidUrl_ne_empty hvu
  have hane : a ≠ "" := ne_empty_of_toLower_eq (by decide) ha
  have hor : truthyStr (getHeaderValue h HEADER_SAP_LOGIN) = false ∨
      truthyStr (getHeaderValue h HEADER_SAP_PASSWORD) = false := by
    cases hl : truthyStr (getHeaderValue h HEADER_SAP_LOGIN) with
    | false => exact Or.inl rfl
    | true =>
      cases hp : truthyStr (getHeaderValue h HEADER_SAP_PASSWORD) with
      | false => exact Or.inr rfl
      | true => exact absurd (hl.trans hp.symm) hxor
  rw [hrest]
  cases hl : truthyStr (getHeaderValue h HEADER_SAP_LOGIN) with
  | true =>
    have hp : truthyStr (getHeaderValue h HEADER_SAP_PASSWORD) = false := by
      rcases hor with hx | hx
      · exact absurd hx (by simp [hl])
      · exact hx
    cases hb : validateBasicAuth h u AUTH_TYPE_BASIC with
    | none =>
      simp [validateAuthHeadersRest, hune, hvu, hat, hane, ha, hl, hp, hb,
        validateDirectJwtAuth_basic, selectAndMerge]
    | some cfgB =>
      obtain ⟨hbp, hbe⟩ := validateBasicAuth_partial h u hor cfgB hb
      simp [validateAuthHeadersRest, hune, hvu, hat, hane, ha, hl, hp, hb,
        validateDirectJwtAuth_basic, selectAndMerge, hbp]
  | false =>
    have hp : truthyStr (getHeaderValue h HEADER_SAP_PASSWORD) = true := by
      cases hp : truthyStr (getHeaderValue h HEADER_SAP_PASSWORD) with
      | true => rfl
      | false => exact absurd (hl.trans hp.symm) hxor
    cases hb : validateBasicAuth h u AUTH_TYPE_BASIC with
    | none =>
      simp [validateAuthHeadersRest, hune, hvu, hat, hane, ha, hl, hp, hb,
        validateDirectJwtAuth_basic, selectAndMerge]
    | some cfgB =>
      obtain ⟨hbp, hbe⟩ := validateBasicAuth_partial h u hor cfgB hb
      simp [validateAuthHeadersRest, hune, hvu, hat, hane, ha, hl, hp, hb,
        validateDirectJwtAuth_basic, selectAndMerge, hbp]

/-- Witness for C5 (amended): login without password. -/
theorem claim5_witness :
    (validateAuthHeaders (some [(HEADER_SAP_URL, HeaderVal.str "https://test.sap.com"),
      (HEADER_SAP_AUTH_TYPE, HeaderVal.str "basic"),
      (HEADER_SAP_LOGIN, HeaderVal.str "user")])).isValid = false ∧
    (validateAuthHeaders (some [(HEADER_SAP_URL, HeaderVal.str "https://test.sap.com"),
      (HEADER_SAP_AUTH_TYPE, HeaderVal.str "basic"),
      (HEADER_SAP_LOGIN, HeaderVal.str "user")])).errors ≠ [] ∧
    ∀ cfg, (validateAuthHeaders (some [(HEADER_SAP_URL, HeaderVal.str "https://test.sap.com"),
      (HEADER_SAP_AUTH_TYPE, HeaderVal.str "basic"),
      (HEADER_SAP_LOGIN, HeaderVal.str "user")])).config = some cfg →
      cfg.priority ≠ AuthMethodPriority.BASIC :=
  claim5_amended _ "https://test.sap.com" "basic" (by decide) (by decide) (by decide)
    (by decide) (by decide) (by decide) (by decide)

end HeaderValidator

namespace HeaderValidator

/-- The selection-and-merge step satisfies the validity invariant: the result
is valid iff its error list is empty and a selected config with empty internal
errors exists. -/
theorem selectAndMerge_inv (e w : List String) (cs : List ValidatedAuthConfig)
    (x : List String) :
    ((selectAndMerge e w cs x).isValid = true ↔
      ((selectAndMerge e w cs x).errors = [] ∧
       ∃ c, (selectAndMerge e w cs x).config = some c ∧ c.errors = [])) := by
  cases cs with
  | nil => simp [selectAndMerge]
  | cons c0 rest =>
    simp [selectAndMerge, List.isEmpty_iff, List.append_eq_nil]

/-- The non-destination part of the resolver satisfies the validity
invariant. -/
theorem validateAuthHeadersRest_inv (h : Headers) (su : Option String)
    (sdc mdc : Option ValidatedAuthConfig) :
    ((validateAuthHeadersRest h su sdc mdc).isValid = true ↔
      ((validateAuthHeadersRest h su sdc mdc).errors = [] ∧
       ∃ c, (validateAuthHeadersRest h su sdc mdc).config = some c ∧ c.errors = [])) := by
  unfold validateAuthHeadersRest
  cases su with
  | none => simp
  | some u =>
    by_cases hu : (u == "") = true
    · simp [hu]
    · by_cases hv : isValidUrl u = true
      · simp only [hu, hv, Bool.not_true, Bool.false_eq_true, if_false, ite_false]
        exact selectAndMerge_inv _ _ _ _
      · have hv' : (!isValidUrl u) = true := by simp [hv]
        simp [hu, hv']

/-- C3: for every header map (and for the missing-headers case),
`validateAuthHeaders` returns `isValid = true` iff the combined errors list is
empty and a method configuration was selected whose own internal errors list
is empty. -/
theorem claim3_theorem (hs? : Option Headers) :
    ((validateAuthHeaders hs?).isValid = true ↔
      ((validateAuthHeaders hs?).errors = [] ∧
       ∃ cfg, (validateAuthHeaders hs?).config = some cfg ∧ cfg.errors = [])) := by
  cases hs? with
  | none => simp [validateAuthHeaders]
  | some h =>
    simp only [validateAuthHeaders]
    cases hsd : validateSapDestinationAuth h with
    | some cfg =>
      by_cases he : (cfg.errors.length == 0) = true
      · have he' : cfg.errors = [] := by simpa using he
        simp [he, he']
      · have he' : ¬ cfg.errors = [] := by intro hx; apply he; simp [hx]
        simp [he, he']
    | none =>
      cases hmc : validateMcpDestinationAuth h (getHeaderValue h HEADER_SAP_URL) with
      | some cfg =>
        by_cases he : (cfg.errors.length == 0) = true
        · have he' : cfg.errors = [] := by simpa using he
          simp [he, he']
        · have he' : ¬ cfg.errors = [] := by intro hx; apply he; simp [hx]
          simp [he, he']
      | none =>
        exact validateAuthHeadersRest_inv h _ none none

end HeaderValidator
